import Mathlib

/-!
Verification of the USB Audio Class driver `usbd_audio.c`
(STM32F401CCU6 USB audio DAC, isochronous speaker with explicit feedback).

The definitions below are a shallow embedding of the C source.  The board
configuration header is not part of the sources, so the configuration
constants (`AUDIO_TOTAL_BUF_SIZE`, `AUDIO_OUT_PACKET`, `USBD_AUDIO_FREQ`,
`USBD_MAX_NUM_INTERFACES`, the endpoint addresses, `AUDIO_DEFAULT_VOLUME`)
are carried in a `Config` record and the theorems are stated for every
configuration.  Machine integers are modelled as `Nat`/`Int` with explicit
reductions modulo `2^32`/`2^64` where the C arithmetic can wrap.
-/

namespace UsbdAudio

/-- Interpret a mathematical integer as the value of an `int32_t` holding its
low 32 bits (two's complement), as the C casts `(int32_t)` do. -/
def int32ofInt (x : Int) : Int :=
  let r := x % (2 ^ 32 : Int)
  if r < 2 ^ 31 then r else r - 2 ^ 32

/-- `AUDIO_FB_DELTA` (usbd_audio.c line 356): feedback clamp radius,
`(uint32_t)(1 << 22)`. -/
def AUDIO_FB_DELTA : Nat := 1 <<< 22

/-- `AUDIO_FB_DEFAULT` (usbd_audio.c lines 349-353): nominal feedback value
selected from `USBD_AUDIO_FREQ`. -/
def AUDIO_FB_DEFAULT (freq : Nat) : Nat :=
  if freq = 96000 then 96 <<< 22
  else if freq = 48000 then 48 <<< 22
  else if freq = 44100 then (44 <<< 22) + (1 <<< 22) / 10
  else 48 <<< 22

/-- Board configuration constants.  These live in headers that are not in the
sources; each field is named after the corresponding C macro. -/
structure Config where
  /-- `AUDIO_TOTAL_BUF_SIZE` -/
  total : Nat
  /-- `AUDIO_OUT_PACKET` -/
  outPacket : Nat
  /-- `USBD_AUDIO_FREQ` -/
  freq : Nat
  /-- `USBD_MAX_NUM_INTERFACES` -/
  maxNumInterfaces : Nat
  /-- `AUDIO_OUT_EP` -/
  outEp : Nat
  /-- `AUDIO_IN_EP` -/
  inEp : Nat
  /-- `AUDIO_DEFAULT_VOLUME` -/
  defaultVolume : Nat
deriving DecidableEq

/-- The feedback set-point `AUDIO_TOTAL_BUF_SIZE/(2*6)` used at
usbd_audio.c line 744 (half-full expressed in stereo frames). -/
def sofSetPoint (total : Nat) : Nat := total / (2 * 6)

/-- Writable stereo-sample count computed at usbd_audio.c lines 726-728:
`rd < wr ? (rd + TOTAL - wr)/4 : (rd - wr)/4`. -/
def writableSamples (total rd wr : Nat) : Nat :=
  if rd < wr then (rd + total - wr) / 4 else (rd - wr) / 4

/-- The pre-clamp feedback value computed at usbd_audio.c lines 744-756:
`dev = writable - TOTAL/(2*6)` (int32), `tmp = (uint64_t)((int32_t)(1<<22)
+ dev*256)`, `pid_k = (uint64_t)fb_nom * tmp`, `fb_value =
(uint32_t)(pid_k >> 22)`. -/
def fbRaw (fb_nom total writable : Nat) : Nat :=
  let dev : Int := int32ofInt ((writable : Int) - (sofSetPoint total : Int))
  let tmp : Nat := ((int32ofInt ((2 ^ 22 : Int) + int32ofInt (dev * 256))) % (2 ^ 64 : Int)).toNat
  let pid_k : Nat := (fb_nom * tmp) % 2 ^ 64
  (pid_k >>> 22) % 2 ^ 32

/-- The clamp at usbd_audio.c lines 758-762: limit `fb_value` to
`[fb_nom - AUDIO_FB_DELTA, fb_nom + AUDIO_FB_DELTA]` (uint32 compares). -/
def fbClamp (fb_nom v : Nat) : Nat :=
  if v > fb_nom + AUDIO_FB_DELTA then fb_nom + AUDIO_FB_DELTA
  else if v < fb_nom - AUDIO_FB_DELTA then fb_nom - AUDIO_FB_DELTA
  else v

/-- The complete per-SOF feedback computation: raw proportional value then
clamp (usbd_audio.c lines 744-762). -/
def fbCompute (fb_nom total writable : Nat) : Nat :=
  fbClamp fb_nom (fbRaw fb_nom total writable)

/-- Serialization of `fb_value` into the 3-byte feedback packet
(usbd_audio.c lines 773-775): `{(v>>8)&0xFF, (v>>16)&0xFF, (v>>24)&0xFF}`. -/
def fbPacket (v : Nat) : List Nat :=
  [(v >>> 8) % 256, (v >>> 16) % 256, (v >>> 24) % 256]

/-- The clamp always lands in the closed interval. -/
theorem fbClamp_bounds (fb_nom v : Nat) :
    fb_nom - AUDIO_FB_DELTA ≤ fbClamp fb_nom v ∧
      fbClamp fb_nom v ≤ fb_nom + AUDIO_FB_DELTA := by
  unfold fbClamp
  split_ifs <;> omega

/-- C1: on every SOF tick, for any rd/wr pair in `[0, TOTAL)`, the clamped
feedback value stays within `[fb_nom - Δ, fb_nom + Δ]`, `Δ = 1 <<< 22`,
regardless of ring state. -/
theorem feedback_always_within_delta (freq total rd wr : Nat)
    (_hrd : rd < total) (_hwr : wr < total) :
    AUDIO_FB_DEFAULT freq - AUDIO_FB_DELTA ≤
        fbCompute (AUDIO_FB_DEFAULT freq) total (writableSamples total rd wr) ∧
      fbCompute (AUDIO_FB_DEFAULT freq) total (writableSamples total rd wr) ≤
        AUDIO_FB_DEFAULT freq + AUDIO_FB_DELTA :=
  fbClamp_bounds (AUDIO_FB_DEFAULT freq) _

theorem feedback_always_within_delta_witness :
    (0 < 1920 ∧ 0 < 1920) ∧
      (AUDIO_FB_DEFAULT 48000 - AUDIO_FB_DELTA ≤
          fbCompute (AUDIO_FB_DEFAULT 48000) 1920 (writableSamples 1920 0 0) ∧
        fbCompute (AUDIO_FB_DEFAULT 48000) 1920 (writableSamples 1920 0 0) ≤
          AUDIO_FB_DEFAULT 48000 + AUDIO_FB_DELTA) :=
  ⟨by decide, feedback_always_within_delta 48000 1920 0 0 (by decide) (by decide)⟩

/-- C8: when the deviation is zero (writable count equals the set-point) the
multiply-then-shift is the identity, so `fb_value = fb_nom`; at 48 kHz the
serialized packet is `{0x00, 0x00, 0x0C}`. -/
theorem feedback_zero_dev_identity (fb_nom total writable : Nat)
    (hw : writable = sofSetPoint total) (hnom : fb_nom < 2 ^ 32) :
    fbCompute fb_nom total writable = fb_nom ∧
      fbPacket (fbCompute (AUDIO_FB_DEFAULT 48000) 1920 (sofSetPoint 1920)) =
        [0x00, 0x00, 0x0C] := by
  constructor
  · subst hw
    have hraw : fbRaw fb_nom total (sofSetPoint total) = fb_nom := by
      unfold fbRaw
      have hdev : int32ofInt ((sofSetPoint total : Int) - (sofSetPoint total : Int)) = 0 := by
        simp [int32ofInt]
      rw [hdev]
      have htmp : ((int32ofInt ((2 ^ 22 : Int) + int32ofInt (0 * 256))) % (2 ^ 64 : Int)).toNat
          = 2 ^ 22 := by decide
      simp only [htmp]
      have hlt : fb_nom * 2 ^ 22 < 2 ^ 64 := by
        calc fb_nom * 2 ^ 22 < 2 ^ 32 * 2 ^ 22 :=
              Nat.mul_lt_mul_of_lt_of_le hnom (le_refl _) (by norm_num)
          _ ≤ 2 ^ 64 := by norm_num
      rw [Nat.mod_eq_of_lt hlt, Nat.shiftRight_eq_div_pow,
        Nat.mul_div_cancel _ (by norm_num : 0 < 2 ^ 22), Nat.mod_eq_of_lt hnom]
    unfold fbCompute
    rw [hraw]
    unfold fbClamp
    split_ifs <;> omega
  · decide

theorem feedback_zero_dev_identity_witness :
    (sofSetPoint 1920 = sofSetPoint 1920 ∧ AUDIO_FB_DEFAULT 48000 < 2 ^ 32) ∧
      (fbCompute (AUDIO_FB_DEFAULT 48000) 1920 (sofSetPoint 1920) = AUDIO_FB_DEFAULT 48000 ∧
        fbPacket (fbCompute (AUDIO_FB_DEFAULT 48000) 1920 (sofSetPoint 1920)) =
          [0x00, 0x00, 0x0C]) :=
  ⟨by decide,
    feedback_zero_dev_identity (AUDIO_FB_DEFAULT 48000) 1920 (sofSetPoint 1920) rfl (by decide)⟩

/-- `AUDIO_OffsetTypeDef` (usbd_audio.h enum, used at lines 410, 559, 575,
956-960). -/
inductive AUDIO_OffsetTypeDef
  | AUDIO_OFFSET_NONE
  | AUDIO_OFFSET_HALF
  | AUDIO_OFFSET_FULL
  | AUDIO_OFFSET_UNKNOWN
deriving DecidableEq

/-- `AUDIO_CMD` enum of the DAC callback interface. -/
inductive AudioCmd
  | START
  | PLAY
  | STOP
  | PAUSE
  | RESUME
deriving DecidableEq

/-- Observable calls the handlers make into the USB stack and the DAC
callback table, in program order. -/
inductive Action
  /-- `USBD_CtlError` -/
  | ctlError
  /-- `USBD_LL_FlushEP(pdev, ep)` -/
  | flushEP (ep : Nat)
  /-- `USBD_LL_PrepareReceive(pdev, ep, ...)` -/
  | prepareReceive (ep : Nat)
  /-- `USBD_LL_Transmit(pdev, ep, data, 3)` -/
  | transmit (ep : Nat) (data : List Nat)
  /-- `pUserData->Init(freq, volume, options)` -/
  | dacInit (freq volume options : Nat)
  /-- `pUserData->DeInit(0)` -/
  | dacDeInit
  /-- `pUserData->AudioCmd(&buffer[bufIndex], size, cmd)` -/
  | audioCmd (bufIndex size : Nat) (cmd : AudioCmd)
deriving DecidableEq

/-- The class handle `USBD_AUDIO_HandleTypeDef` together with the
file-scope globals of usbd_audio.c (lines 339-343, 358-365).  `fb_nom` is
initialized to `AUDIO_FB_DEFAULT` and never written afterwards, so it is not
carried in the state; the SOF model uses `AUDIO_FB_DEFAULT cfg.freq`. -/
structure AudioState where
  wr_ptr : Nat
  rd_ptr : Nat
  offset : AUDIO_OffsetTypeDef
  rd_enable : Nat
  alt_setting : Nat
  buffer : List Nat
  /-- global `tx_flag` (line 339) -/
  tx_flag : Nat
  /-- global `is_playing` (line 340) -/
  is_playing : Nat
  /-- global `all_ready` (line 341) -/
  all_ready : Nat
  /-- global `fnsof` (line 343), captured at the last IsoINIncomplete -/
  fnsof : Nat
  /-- global `fb_value` (line 359) -/
  fb_value : Nat
  /-- global `fb_data[3]` (lines 362-365) -/
  fb_data : List Nat
deriving DecidableEq

/-- `USBD_AUDIO_DataIn` (usbd_audio.c lines 646-653): on the feedback IN
endpoint (`epnum == AUDIO_IN_EP & 0xf`) clear `tx_flag`. -/
def USBD_AUDIO_DataIn (cfg : Config) (s : AudioState) (epnum : Nat) : AudioState :=
  if epnum = cfg.inEp % 16 then { s with tx_flag := 0 } else s

/-- `USBD_AUDIO_SOF` (usbd_audio.c lines 704-796).  `ndtr` is the DMA NDTR
register, `fnsof_new` the frame number read from `DSTS` (already shifted
right by 8).  The static `sof_count` is 0 at every entry (it is incremented
once and immediately reset inside the `== 1` branch), so the feedback
computation runs on every gated tick; the first `fb_value = AUDIO_FB_DEFAULT`
store at lines 730-734 is always overwritten by the computed value. -/
def USBD_AUDIO_SOF (cfg : Config) (s : AudioState) (ndtr fnsof_new : Nat) :
    AudioState × List Action :=
  if s.rd_enable ≥ 1 ∧ s.all_ready = 1 then
    let rd := (cfg.total + 2 ^ 32 - ndtr % 2 ^ 16) % 2 ^ 32
    let writable := writableSamples cfg.total rd s.wr_ptr
    let fbv := fbCompute (AUDIO_FB_DEFAULT cfg.freq) cfg.total writable
    let s1 := { s with rd_ptr := rd, fb_value := fbv, fb_data := fbPacket fbv }
    if s1.tx_flag = 0 then
      if s1.fnsof % 2 = fnsof_new % 2 then
        ({ s1 with tx_flag := 1 }, [Action.transmit cfg.inEp (fbPacket fbv)])
      else (s1, [])
    else (s1, [])
  else (s, [])

/-- `USBD_AUDIO_IsoINIncomplete` (usbd_audio.c lines 873-885): capture
`fnsof` from DSTS; if `tx_flag == 1` then clear it and flush the IN
endpoint. -/
def USBD_AUDIO_IsoINIncomplete (cfg : Config) (s : AudioState) (fnsof_new : Nat) :
    AudioState × List Action :=
  let s1 := { s with fnsof := fnsof_new }
  if s1.tx_flag = 1 then ({ s1 with tx_flag := 0 }, [Action.flushEP cfg.inEp])
  else (s1, [])

/-- `USBD_AUDIO_IsoOutIncomplete` (usbd_audio.c lines 893-906): flush the
OUT endpoint and re-arm reception at `buffer[wr_ptr]`. -/
def USBD_AUDIO_IsoOutIncomplete (cfg : Config) (s : AudioState) :
    AudioState × List Action :=
  (s, [Action.flushEP cfg.outEp, Action.prepareReceive cfg.outEp])

/-- The per-sample copy loop of `USBD_AUDIO_DataOut` (usbd_audio.c lines
942-954): four byte writes from `tmpbuf` with `wr_ptr` incremented by one
each, then the wrap check `if (wr_ptr >= AUDIO_TOTAL_BUF_SIZE) wr_ptr = 0`. -/
def ingestLoop (total : Nat) (buf : List Nat) (wr : Nat) (tmp : List Nat) (ptr : Nat) :
    Nat → List Nat × Nat
  | 0 => (buf, wr)
  | n + 1 =>
    let buf1 := ((((buf.set wr (tmp.getD ptr 0)).set (wr + 1) (tmp.getD (ptr + 1) 0)).set
      (wr + 2) (tmp.getD (ptr + 2) 0)).set (wr + 3) (tmp.getD (ptr + 3) 0))
    let wr1 := wr + 4
    let wr2 := if wr1 ≥ total then 0 else wr1
    ingestLoop total buf1 wr2 tmp (ptr + 4) n

/-- `USBD_AUDIO_DataOut` (usbd_audio.c lines 914-980): gated on
`epnum == AUDIO_OUT_EP && all_ready == 1`; the received size is a
`uint16_t`; oversize packets are forced to size 0; the staging buffer
`tmpbuf` is copied into the ring; when the ring first reaches half-full the
playback-start event latches and `AudioCmd(..., AUDIO_CMD_START)` runs. -/
def USBD_AUDIO_DataOut (cfg : Config) (s : AudioState) (epnum rxSize : Nat)
    (tmpbuf : List Nat) : AudioState × List Action :=
  if epnum = cfg.outEp ∧ s.all_ready = 1 then
    let packetSize0 := rxSize % 2 ^ 16
    let packetSize := if packetSize0 > cfg.outPacket then 0 else packetSize0
    let num_samples := packetSize / 4
    let bw := ingestLoop cfg.total s.buffer s.wr_ptr tmpbuf 0 num_samples
    let s1 := { s with buffer := bw.1, wr_ptr := bw.2 }
    let r :=
      if s1.offset = AUDIO_OffsetTypeDef.AUDIO_OFFSET_UNKNOWN ∧ s1.is_playing = 0 then
        if s1.wr_ptr ≥ cfg.total / 2 then
          let s2 := { s1 with offset := AUDIO_OffsetTypeDef.AUDIO_OFFSET_NONE,
                              is_playing := 1 }
          if s2.rd_enable = 0 then
            ({ s2 with rd_enable := 1 },
              [Action.audioCmd 0 (cfg.total / 2) AudioCmd.START])
          else (s2, ([] : List Action))
        else (s1, ([] : List Action))
      else (s1, ([] : List Action))
    (r.1, r.2 ++ [Action.prepareReceive cfg.outEp])
  else (s, [])

/-- The `USB_REQ_SET_INTERFACE` arm of `USBD_AUDIO_Setup` (usbd_audio.c
lines 546-604).  `devConfigured` is `dev_state == USBD_STATE_CONFIGURED`;
the requested alternate setting is `(uint8_t)(req->wValue)`.  The returned
`Bool` is the handler status (`true` = `USBD_OK`, `false` = `USBD_FAIL`). -/
def USBD_AUDIO_Setup_SET_INTERFACE (cfg : Config) (devConfigured : Bool)
    (wValue : Nat) (s : AudioState) : AudioState × List Action × Bool :=
  if devConfigured then
    if wValue % 256 ≤ cfg.maxNumInterfaces then
      let alt := wValue % 256
      let sAlt := { s with alt_setting := alt }
      if alt = 0 then
        let s2 := { sAlt with buffer := List.replicate cfg.total 0,
                              all_ready := 0, tx_flag := 1, is_playing := 0,
                              offset := AUDIO_OffsetTypeDef.AUDIO_OFFSET_UNKNOWN,
                              rd_enable := 0, rd_ptr := 0, wr_ptr := 0 }
        (s2, [Action.flushEP cfg.inEp, Action.flushEP cfg.outEp, Action.dacDeInit,
              Action.flushEP cfg.inEp], true)
      else
        let s2 := { sAlt with all_ready := 0, tx_flag := 1, is_playing := 0,
                              offset := AUDIO_OffsetTypeDef.AUDIO_OFFSET_UNKNOWN,
                              rd_enable := 0, rd_ptr := 0, wr_ptr := 0 }
        let s3 := { s2 with tx_flag := 0, all_ready := 1 }
        (s3, [Action.flushEP cfg.inEp, Action.flushEP cfg.outEp,
              Action.dacInit cfg.freq cfg.defaultVolume 0,
              Action.flushEP cfg.inEp], true)
    else (s, [Action.ctlError], false)
  else (s, [Action.ctlError], false)

/-- A small concrete configuration used to instantiate the theorems:
`TOTAL = 8`, `AUDIO_OUT_PACKET = 4`, 48 kHz, `USBD_MAX_NUM_INTERFACES = 2`,
OUT endpoint 0x01, IN endpoint 0x81. -/
def cfgSmall : Config :=
  { total := 8, outPacket := 4, freq := 48000, maxNumInterfaces := 2,
    outEp := 1, inEp := 129, defaultVolume := 70 }

/-- A concrete post-Init state (wr = rd = 0, offset UNKNOWN, reads disabled,
`tx_flag = 1`, zeroed ring of `cfgSmall.total` bytes). -/
def baseState : AudioState :=
  { wr_ptr := 0, rd_ptr := 0, offset := AUDIO_OffsetTypeDef.AUDIO_OFFSET_UNKNOWN,
    rd_enable := 0, alt_setting := 0, buffer := List.replicate 8 0,
    tx_flag := 1, is_playing := 0, all_ready := 0, fnsof := 0,
    fb_value := 0, fb_data := [0, 0, 0] }

/-- A concrete state in which SOF is ready to submit feedback: reads
enabled, `all_ready = 1`, `tx_flag = 0`. -/
def sofReady : AudioState :=
  { baseState with rd_enable := 1, all_ready := 1, tx_flag := 0 }

/-- C2 counterexample: `USBD_AUDIO_IsoINIncomplete` performs the transition
`1 → 0` of `tx_flag` (not `0 → 1` as claimed): at a concrete state with
`tx_flag = 1` the handler leaves `tx_flag = 0`. -/
theorem tx_flag_iso_in_incomplete_cex :
    baseState.tx_flag = 1 ∧
      (USBD_AUDIO_IsoINIncomplete cfgSmall baseState 5).1.tx_flag = 0 := by
  decide

/-- C2 (amended): the isochronous event handlers change `tx_flag` only as
follows: DataIn sets it to 0; IsoINIncomplete performs `1 → 0` (and leaves
it unchanged otherwise); the SOF submit path performs `0 → 1`; DataOut and
IsoOutIncomplete never change it. -/
theorem tx_flag_transitions (cfg : Config) (s : AudioState)
    (ep ndtr f sz : Nat) (buf : List Nat) :
    ((USBD_AUDIO_DataIn cfg s ep).tx_flag = 0 ∨
        (USBD_AUDIO_DataIn cfg s ep).tx_flag = s.tx_flag) ∧
      ((USBD_AUDIO_IsoINIncomplete cfg s f).1.tx_flag =
        if s.tx_flag = 1 then 0 else s.tx_flag) ∧
      ((USBD_AUDIO_SOF cfg s ndtr f).1.tx_flag = s.tx_flag ∨
        (s.tx_flag = 0 ∧ (USBD_AUDIO_SOF cfg s ndtr f).1.tx_flag = 1)) ∧
      (USBD_AUDIO_DataOut cfg s ep sz buf).1.tx_flag = s.tx_flag ∧
      (USBD_AUDIO_IsoOutIncomplete cfg s).1.tx_flag = s.tx_flag := by
  refine ⟨?_, ?_, ?_, ?_, ?_⟩
  · unfold USBD_AUDIO_DataIn
    split_ifs <;> simp
  · unfold USBD_AUDIO_IsoINIncomplete
    split_ifs <;> simp_all
  · simp only [USBD_AUDIO_SOF]
    split_ifs <;> simp_all
  · simp only [USBD_AUDIO_DataOut]
    split_ifs <;> simp_all
  · simp [USBD_AUDIO_IsoOutIncomplete]

/-- C4: on a SOF tick a feedback packet is transmitted only when
`tx_flag == 0` and the low bit of the fresh frame number equals the low bit
of the `fnsof` captured at the last IsoINIncomplete, and immediately after
a transmit `tx_flag = 1`. -/
theorem sof_submit_guard (cfg : Config) (s : AudioState)
    (ndtr fnsof_new ep : Nat) (d : List Nat)
    (h : Action.transmit ep d ∈ (USBD_AUDIO_SOF cfg s ndtr fnsof_new).2) :
    s.tx_flag = 0 ∧ s.fnsof % 2 = fnsof_new % 2 ∧
      (USBD_AUDIO_SOF cfg s ndtr fnsof_new).1.tx_flag = 1 := by
  simp only [USBD_AUDIO_SOF] at h ⊢
  split_ifs at h ⊢ with h1 h2 h3 <;> simp_all

theorem sof_submit_guard_witness :
    (Action.transmit 129 (fbPacket (fbCompute (AUDIO_FB_DEFAULT 48000) 8 2)) ∈
        (USBD_AUDIO_SOF cfgSmall sofReady 0 0).2) ∧
      (sofReady.tx_flag = 0 ∧ sofReady.fnsof % 2 = 0 % 2 ∧
        (USBD_AUDIO_SOF cfgSmall sofReady 0 0).1.tx_flag = 1) :=
  ⟨by decide,
    sof_submit_guard cfgSmall sofReady 0 0 129
      (fbPacket (fbCompute (AUDIO_FB_DEFAULT 48000) 8 2)) (by decide)⟩

/-- C6: a DataOut event on the audio OUT endpoint with `all_ready == 1`
whose (uint16) reported size exceeds `AUDIO_OUT_PACKET` is silently
dropped: nothing is ingested, `wr` and the ring are unchanged, no control
error is raised, and reception is re-armed. -/
theorem dataout_oversize_dropped (cfg : Config) (s : AudioState)
    (sz : Nat) (tmpbuf : List Nat) (hready : s.all_ready = 1)
    (hover : cfg.outPacket < sz) (hsz : sz < 2 ^ 16) :
    (USBD_AUDIO_DataOut cfg s cfg.outEp sz tmpbuf).1.wr_ptr = s.wr_ptr ∧
      (USBD_AUDIO_DataOut cfg s cfg.outEp sz tmpbuf).1.buffer = s.buffer ∧
      Action.prepareReceive cfg.outEp ∈ (USBD_AUDIO_DataOut cfg s cfg.outEp sz tmpbuf).2 ∧
      Action.ctlError ∉ (USBD_AUDIO_DataOut cfg s cfg.outEp sz tmpbuf).2 := by
  simp only [USBD_AUDIO_DataOut]
  rw [Nat.mod_eq_of_lt hsz]
  split_ifs <;> simp_all [ingestLoop]

theorem dataout_oversize_dropped_witness :
    (({ baseState with all_ready := 1 } : AudioState).all_ready = 1 ∧
        cfgSmall.outPacket < 8 ∧ 8 < 2 ^ 16) ∧
      ((USBD_AUDIO_DataOut cfgSmall { baseState with all_ready := 1 } cfgSmall.outEp 8
          (List.replicate 8 3)).1.wr_ptr = ({ baseState with all_ready := 1 } : AudioState).wr_ptr ∧
        (USBD_AUDIO_DataOut cfgSmall { baseState with all_ready := 1 } cfgSmall.outEp 8
          (List.replicate 8 3)).1.buffer = ({ baseState with all_ready := 1 } : AudioState).buffer ∧
        Action.prepareReceive cfgSmall.outEp ∈
          (USBD_AUDIO_DataOut cfgSmall { baseState with all_ready := 1 } cfgSmall.outEp 8
            (List.replicate 8 3)).2 ∧
        Action.ctlError ∉
          (USBD_AUDIO_DataOut cfgSmall { baseState with all_ready := 1 } cfgSmall.outEp 8
            (List.replicate 8 3)).2) :=
  ⟨by decide,
    dataout_oversize_dropped cfgSmall { baseState with all_ready := 1 } 8
      (List.replicate 8 3) (by decide) (by decide) (by decide)⟩

/-- C3 counterexample: the alt == 1 branch of SET_INTERFACE does not zero
the ring buffer: starting from a concrete state whose ring holds nonzero
bytes, the handler leaves the ring contents unchanged (and nonzero). -/
theorem alt1_does_not_zero_ring_cex :
    (USBD_AUDIO_Setup_SET_INTERFACE cfgSmall true 1
        { baseState with buffer := List.replicate 8 7 }).1.buffer =
      List.replicate 8 7 ∧
      List.replicate 8 7 ≠ List.replicate cfgSmall.total 0 := by
  decide

/-- C3 (amended): for a SET_INTERFACE with alt value 1 in Configured state,
the handler performs the reset sequence of the alt == 0 branch except for
zeroing the ring (buffer contents are left unchanged): it clears
`is_playing`, sets `offset = UNKNOWN`, disables reads, resets
`wr = rd = 0`, sets `alt_setting = 1`, flushes both isochronous endpoints,
then calls `Init(rate, default_volume, 0)`, sets `tx_flag = 0` and
`all_ready = 1`, and succeeds. -/
theorem alt1_reset_without_zeroing (cfg : Config) (wValue : Nat) (s : AudioState)
    (halt : wValue % 256 = 1) (hmax : 1 ≤ cfg.maxNumInterfaces) :
    (USBD_AUDIO_Setup_SET_INTERFACE cfg true wValue s).1.buffer = s.buffer ∧
      (USBD_AUDIO_Setup_SET_INTERFACE cfg true wValue s).1.is_playing = 0 ∧
      (USBD_AUDIO_Setup_SET_INTERFACE cfg true wValue s).1.offset =
        AUDIO_OffsetTypeDef.AUDIO_OFFSET_UNKNOWN ∧
      (USBD_AUDIO_Setup_SET_INTERFACE cfg true wValue s).1.rd_enable = 0 ∧
      (USBD_AUDIO_Setup_SET_INTERFACE cfg true wValue s).1.rd_ptr = 0 ∧
      (USBD_AUDIO_Setup_SET_INTERFACE cfg true wValue s).1.wr_ptr = 0 ∧
      (USBD_AUDIO_Setup_SET_INTERFACE cfg true wValue s).1.alt_setting = 1 ∧
      (USBD_AUDIO_Setup_SET_INTERFACE cfg true wValue s).1.tx_flag = 0 ∧
      (USBD_AUDIO_Setup_SET_INTERFACE cfg true wValue s).1.all_ready = 1 ∧
      (USBD_AUDIO_Setup_SET_INTERFACE cfg true wValue s).2.1 =
        [Action.flushEP cfg.inEp, Action.flushEP cfg.outEp,
          Action.dacInit cfg.freq cfg.defaultVolume 0, Action.flushEP cfg.inEp] ∧
      (USBD_AUDIO_Setup_SET_INTERFACE cfg true wValue s).2.2 = true := by
  unfold USBD_AUDIO_Setup_SET_INTERFACE
  rw [if_pos rfl, if_pos (by omega : wValue % 256 ≤ cfg.maxNumInterfaces)]
  rw [halt]
  simp

theorem alt1_reset_without_zeroing_witness :
    (1 % 256 = 1 ∧ 1 ≤ cfgSmall.maxNumInterfaces) ∧
      ((USBD_AUDIO_Setup_SET_INTERFACE cfgSmall true 1
          { baseState with buffer := List.replicate 8 7 }).1.buffer =
        ({ baseState with buffer := List.replicate 8 7 } : AudioState).buffer ∧
        (USBD_AUDIO_Setup_SET_INTERFACE cfgSmall true 1
          { baseState with buffer := List.replicate 8 7 }).1.is_playing = 0 ∧
        (USBD_AUDIO_Setup_SET_INTERFACE cfgSmall true 1
          { baseState with buffer := List.replicate 8 7 }).1.offset =
          AUDIO_OffsetTypeDef.AUDIO_OFFSET_UNKNOWN ∧
        (USBD_AUDIO_Setup_SET_INTERFACE cfgSmall true 1
          { baseState with buffer := List.replicate 8 7 }).1.rd_enable = 0 ∧
        (USBD_AUDIO_Setup_SET_INTERFACE cfgSmall true 1
          { baseState with buffer := List.replicate 8 7 }).1.rd_ptr = 0 ∧
        (USBD_AUDIO_Setup_SET_INTERFACE cfgSmall true 1
          { baseState with buffer := List.replicate 8 7 }).1.wr_ptr = 0 ∧
        (USBD_AUDIO_Setup_SET_INTERFACE cfgSmall true 1
          { baseState with buffer := List.replicate 8 7 }).1.alt_setting = 1 ∧
        (USBD_AUDIO_Setup_SET_INTERFACE cfgSmall true 1
          { baseState with buffer := List.replicate 8 7 }).1.tx_flag = 0 ∧
        (USBD_AUDIO_Setup_SET_INTERFACE cfgSmall true 1
          { baseState with buffer := List.replicate 8 7 }).1.all_ready = 1 ∧
        (USBD_AUDIO_Setup_SET_INTERFACE cfgSmall true 1
          { baseState with buffer := List.replicate 8 7 }).2.1 =
          [Action.flushEP cfgSmall.inEp, Action.flushEP cfgSmall.outEp,
            Action.dacInit cfgSmall.freq cfgSmall.defaultVolume 0,
            Action.flushEP cfgSmall.inEp] ∧
        (USBD_AUDIO_Setup_SET_INTERFACE cfgSmall true 1
          { baseState with buffer := List.replicate 8 7 }).2.2 = true) :=
  ⟨by decide,
    alt1_reset_without_zeroing cfgSmall 1 { baseState with buffer := List.replicate 8 7 }
      (by decide) (by decide)⟩

/-- C9: a SET_INTERFACE request fails with CtlError exactly when the
requested alt value (low byte of wValue) exceeds `USBD_MAX_NUM_INTERFACES`
or the device is not Configured; every rejected request leaves the state
untouched and performs no reset and no DAC callback (its only action is the
control error). -/
theorem set_interface_reject_iff (cfg : Config) (devConfigured : Bool)
    (wValue : Nat) (s : AudioState) :
    ((USBD_AUDIO_Setup_SET_INTERFACE cfg devConfigured wValue s).2.2 = false ↔
        (cfg.maxNumInterfaces < wValue % 256 ∨ devConfigured = false)) ∧
      ((USBD_AUDIO_Setup_SET_INTERFACE cfg devConfigured wValue s).2.2 = false →
        (USBD_AUDIO_Setup_SET_INTERFACE cfg devConfigured wValue s).1 = s ∧
        (USBD_AUDIO_Setup_SET_INTERFACE cfg devConfigured wValue s).2.1 =
          [Action.ctlError]) ∧
      (Action.ctlError ∈ (USBD_AUDIO_Setup_SET_INTERFACE cfg devConfigured wValue s).2.1 ↔
        (USBD_AUDIO_Setup_SET_INTERFACE cfg devConfigured wValue s).2.2 = false) := by
  unfold USBD_AUDIO_Setup_SET_INTERFACE
  cases devConfigured <;> simp <;> split_ifs <;> simp_all

/-- C10: a SET_INTERFACE in Configured state with alt value `A`,
`2 ≤ A ≤ USBD_MAX_NUM_INTERFACES`, is accepted even though no such alt
setting exists in the descriptors: `alt_setting := A` and the full
operational sequence runs (`Init` callback, `tx_flag = 0`,
`all_ready = 1`), with no control error. -/
theorem set_interface_phantom_alt_accepted (cfg : Config) (wValue : Nat)
    (s : AudioState) (h2 : 2 ≤ wValue % 256)
    (hmax : wValue % 256 ≤ cfg.maxNumInterfaces) :
    (USBD_AUDIO_Setup_SET_INTERFACE cfg true wValue s).2.2 = true ∧
      Action.ctlError ∉ (USBD_AUDIO_Setup_SET_INTERFACE cfg true wValue s).2.1 ∧
      (USBD_AUDIO_Setup_SET_INTERFACE cfg true wValue s).1.alt_setting = wValue % 256 ∧
      (USBD_AUDIO_Setup_SET_INTERFACE cfg true wValue s).1.tx_flag = 0 ∧
      (USBD_AUDIO_Setup_SET_INTERFACE cfg true wValue s).1.all_ready = 1 ∧
      Action.dacInit cfg.freq cfg.defaultVolume 0 ∈
        (USBD_AUDIO_Setup_SET_INTERFACE cfg true wValue s).2.1 := by
  unfold USBD_AUDIO_Setup_SET_INTERFACE
  rw [if_pos rfl, if_pos hmax, if_neg (by omega : ¬ wValue % 256 = 0)]
  simp

theorem set_interface_phantom_alt_accepted_witness :
    (2 ≤ 2 % 256 ∧ 2 % 256 ≤ cfgSmall.maxNumInterfaces) ∧
      ((USBD_AUDIO_Setup_SET_INTERFACE cfgSmall true 2 baseState).2.2 = true ∧
        Action.ctlError ∉ (USBD_AUDIO_Setup_SET_INTERFACE cfgSmall true 2 baseState).2.1 ∧
        (USBD_AUDIO_Setup_SET_INTERFACE cfgSmall true 2 baseState).1.alt_setting = 2 % 256 ∧
        (USBD_AUDIO_Setup_SET_INTERFACE cfgSmall true 2 baseState).1.tx_flag = 0 ∧
        (USBD_AUDIO_Setup_SET_INTERFACE cfgSmall true 2 baseState).1.all_ready = 1 ∧
        Action.dacInit cfgSmall.freq cfgSmall.defaultVolume 0 ∈
          (USBD_AUDIO_Setup_SET_INTERFACE cfgSmall true 2 baseState).2.1) :=
  ⟨by decide,
    set_interface_phantom_alt_accepted cfgSmall 2 baseState (by decide) (by decide)⟩

/-- Fold a sequence of DataOut events (endpoint, reported size, staging
buffer) through the handler, keeping the state. -/
def runDataOut (cfg : Config) (s : AudioState) : List (Nat × Nat × List Nat) → AudioState
  | [] => s
  | e :: rest => runDataOut cfg (USBD_AUDIO_DataOut cfg s e.1 e.2.1 e.2.2).1 rest

/-- The copy loop preserves 4-byte alignment of `wr_ptr` and keeps it below
`AUDIO_TOTAL_BUF_SIZE` (the wrap check fires exactly at the boundary). -/
theorem ingestLoop_wr_invariant (total : Nat) (h4 : total % 4 = 0) (hpos : 0 < total)
    (n : Nat) :
    ∀ (buf tmp : List Nat) (wr ptr : Nat), wr % 4 = 0 → wr < total →
      (ingestLoop total buf wr tmp ptr n).2 % 4 = 0 ∧
        (ingestLoop total buf wr tmp ptr n).2 < total := by
  induction n with
  | zero =>
    intro buf tmp wr ptr ha hlt
    exact ⟨ha, hlt⟩
  | succ n ih =>
    intro buf tmp wr ptr ha hlt
    by_cases h : wr + 4 ≥ total
    · simp only [ingestLoop, if_pos h]
      exact ih _ _ _ _ (by omega) hpos
    · simp only [ingestLoop, if_neg h]
      exact ih _ _ _ _ (by omega) (by omega)

/-- One DataOut event preserves the `wr_ptr` alignment/range invariant. -/
theorem dataOut_wr_invariant (cfg : Config) (h4 : cfg.total % 4 = 0)
    (hpos : 0 < cfg.total) (s : AudioState) (ep sz : Nat) (tmp : List Nat)
    (ha : s.wr_ptr % 4 = 0) (hlt : s.wr_ptr < cfg.total) :
    (USBD_AUDIO_DataOut cfg s ep sz tmp).1.wr_ptr % 4 = 0 ∧
      (USBD_AUDIO_DataOut cfg s ep sz tmp).1.wr_ptr < cfg.total := by
  have hinv : ∀ n, (ingestLoop cfg.total s.buffer s.wr_ptr tmp 0 n).2 % 4 = 0 ∧
      (ingestLoop cfg.total s.buffer s.wr_ptr tmp 0 n).2 < cfg.total :=
    fun n => ingestLoop_wr_invariant cfg.total h4 hpos n s.buffer tmp s.wr_ptr 0 ha hlt
  simp only [USBD_AUDIO_DataOut]
  split_ifs <;> first
    | exact ⟨ha, hlt⟩
    | exact hinv _

/-- C7: over any sequence of DataOut events starting from `wr = 0`, the
write pointer stays 4-byte aligned and in `[0, TOTAL)` (the trace is
arbitrary, so the invariant holds after every prefix), assuming the
configured `TOTAL` is a positive multiple of 4 and each reported size is a
multiple of 4 bounded by `AUDIO_OUT_PACKET`. -/
theorem wr_aligned_in_range (cfg : Config) (h4 : cfg.total % 4 = 0)
    (hpos : 0 < cfg.total) (s0 : AudioState) (h0 : s0.wr_ptr = 0)
    (events : List (Nat × Nat × List Nat))
    (_hsz : ∀ e ∈ events, e.2.1 % 4 = 0 ∧ e.2.1 ≤ cfg.outPacket) :
    (runDataOut cfg s0 events).wr_ptr % 4 = 0 ∧
      (runDataOut cfg s0 events).wr_ptr < cfg.total := by
  have main : ∀ (es : List (Nat × Nat × List Nat)) (s : AudioState),
      s.wr_ptr % 4 = 0 → s.wr_ptr < cfg.total →
      (runDataOut cfg s es).wr_ptr % 4 = 0 ∧ (runDataOut cfg s es).wr_ptr < cfg.total := by
    intro es
    induction es with
    | nil => intro s ha hlt; exact ⟨ha, hlt⟩
    | cons e rest ih =>
      intro s ha hlt
      have hstep := dataOut_wr_invariant cfg h4 hpos s e.1 e.2.1 e.2.2 ha hlt
      exact ih _ hstep.1 hstep.2
  exact main events s0 (by simp [h0]) (by omega)

theorem wr_aligned_in_range_witness :
    (cfgSmall.total % 4 = 0 ∧ 0 < cfgSmall.total ∧ baseState.wr_ptr = 0 ∧
        (∀ e ∈ [((1 : Nat), (4 : Nat), List.replicate 4 9)],
          e.2.1 % 4 = 0 ∧ e.2.1 ≤ cfgSmall.outPacket)) ∧
      ((runDataOut cfgSmall baseState [(1, 4, List.replicate 4 9)]).wr_ptr % 4 = 0 ∧
        (runDataOut cfgSmall baseState [(1, 4, List.replicate 4 9)]).wr_ptr < cfgSmall.total) :=
  ⟨by decide,
    wr_aligned_in_range cfgSmall (by decide) (by decide) baseState (by decide)
      [(1, 4, List.replicate 4 9)] (by decide)⟩

/-- One USB isochronous event as dispatched to the class driver. -/
inductive UsbEvent
  | dataOut (epnum rxSize : Nat) (tmpbuf : List Nat)
  | dataIn (epnum : Nat)
  | sof (ndtr fnsof_new : Nat)
  | isoInIncomplete (fnsof_new : Nat)
  | isoOutIncomplete
deriving DecidableEq

/-- Dispatch one event to the corresponding handler. -/
def stepEvent (cfg : Config) (s : AudioState) : UsbEvent → AudioState × List Action
  | UsbEvent.dataOut ep sz buf => USBD_AUDIO_DataOut cfg s ep sz buf
  | UsbEvent.dataIn ep => (USBD_AUDIO_DataIn cfg s ep, [])
  | UsbEvent.sof ndtr f => USBD_AUDIO_SOF cfg s ndtr f
  | UsbEvent.isoInIncomplete f => USBD_AUDIO_IsoINIncomplete cfg s f
  | UsbEvent.isoOutIncomplete => USBD_AUDIO_IsoOutIncomplete cfg s

/-- Run a sequence of events, collecting the actions of every step. -/
def runEvents (cfg : Config) (s : AudioState) : List UsbEvent → AudioState × List Action
  | [] => (s, [])
  | e :: es =>
    let r1 := stepEvent cfg s e
    let r2 := runEvents cfg r1.1 es
    (r2.1, r1.2 ++ r2.2)

/-- Recognize the `AudioCmd(..., AUDIO_CMD_START)` call. -/
def isStartCmd : Action → Bool
  | Action.audioCmd _ _ AudioCmd.START => true
  | _ => false

/-- Number of `AUDIO_CMD_START` invocations in an action list. -/
def countStart (l : List Action) : Nat := l.countP isStartCmd

/-- Session state before playback has latched: `is_playing = 0`, offset
still UNKNOWN, reads disabled — exactly the state the alt-1 reset leaves. -/
def PreStart (s : AudioState) : Prop :=
  s.is_playing = 0 ∧ s.offset = AUDIO_OffsetTypeDef.AUDIO_OFFSET_UNKNOWN ∧ s.rd_enable = 0

/-- Session state after the playback-start event latched. -/
def Started (s : AudioState) : Prop :=
  s.is_playing = 1 ∧ s.offset = AUDIO_OffsetTypeDef.AUDIO_OFFSET_NONE ∧ s.rd_enable = 1

instance (s : AudioState) : Decidable (PreStart s) := by
  unfold PreStart; infer_instance

/-- A single event either keeps the session in `PreStart` with no START, or
latches it into `Started` emitting exactly one START; from `Started` no
further START is ever emitted. -/
theorem stepEvent_start_invariant (cfg : Config) (s : AudioState) (e : UsbEvent) :
    (PreStart s →
      (PreStart (stepEvent cfg s e).1 ∧ countStart (stepEvent cfg s e).2 = 0) ∨
        (Started (stepEvent cfg s e).1 ∧ countStart (stepEvent cfg s e).2 = 1)) ∧
      (Started s →
        Started (stepEvent cfg s e).1 ∧ countStart (stepEvent cfg s e).2 = 0) := by
  cases e <;>
    simp only [stepEvent, USBD_AUDIO_DataOut, USBD_AUDIO_DataIn, USBD_AUDIO_SOF,
      USBD_AUDIO_IsoINIncomplete, USBD_AUDIO_IsoOutIncomplete] <;>
    (try split_ifs) <;>
    simp_all [PreStart, Started, countStart, isStartCmd, List.countP_cons, List.countP_nil]

/-- Running any event sequence from `PreStart` ends in `PreStart` with zero
STARTs or in `Started` with exactly one START. -/
theorem runEvents_start_invariant (cfg : Config) (events : List UsbEvent) :
    ∀ s : AudioState,
      (PreStart s →
        (PreStart (runEvents cfg s events).1 ∧ countStart (runEvents cfg s events).2 = 0) ∨
          (Started (runEvents cfg s events).1 ∧ countStart (runEvents cfg s events).2 = 1)) ∧
        (Started s →
          Started (runEvents cfg s events).1 ∧ countStart (runEvents cfg s events).2 = 0) := by
  induction events with
  | nil =>
    intro s
    exact ⟨fun h => Or.inl ⟨h, rfl⟩, fun h => ⟨h, rfl⟩⟩
  | cons e es ih =>
    intro s
    have hstep := stepEvent_start_invariant cfg s e
    have hcount : countStart ((stepEvent cfg s e).2 ++ (runEvents cfg (stepEvent cfg s e).1 es).2)
        = countStart (stepEvent cfg s e).2 + countStart (runEvents cfg (stepEvent cfg s e).1 es).2 :=
      List.countP_append _ _ _
    constructor
    · intro hpre
      rcases hstep.1 hpre with ⟨hp, hc⟩ | ⟨hq, hc⟩
      · rcases (ih (stepEvent cfg s e).1).1 hp with ⟨hp2, hc2⟩ | ⟨hq2, hc2⟩
        · exact Or.inl ⟨hp2, by simp only [runEvents, hcount, hc, hc2]⟩
        · exact Or.inr ⟨hq2, by simp only [runEvents, hcount, hc, hc2]⟩
      · have hrest := (ih (stepEvent cfg s e).1).2 hq
        exact Or.inr ⟨hrest.1, by simp only [runEvents, hcount, hc, hrest.2]⟩
    · intro hq
      have hrest := (ih (stepEvent cfg s e).1).2 (hstep.2 hq).1
      exact ⟨hrest.1, by simp only [runEvents, hcount, (hstep.2 hq).2, hrest.2]⟩

/-- C5: within one alt-1 session (any event trace from the post-reset
state), `AUDIO_CMD_START` is invoked at most once, it has been invoked
exactly once whenever `is_playing = 1`, and the `0 → 1` latch of
`is_playing` can only happen on a DataOut event whose post-ingest `wr` has
reached `TOTAL/2`, on which the single START is issued with the buffer
start and size `TOTAL/2`. -/
theorem is_playing_starts_once (cfg : Config) (s0 : AudioState)
    (events : List UsbEvent) (h0 : PreStart s0) :
    countStart (runEvents cfg s0 events).2 ≤ 1 ∧
      ((runEvents cfg s0 events).1.is_playing = 1 →
        countStart (runEvents cfg s0 events).2 = 1) ∧
      (∀ (s : AudioState) (e : UsbEvent), PreStart s →
        (stepEvent cfg s e).1.is_playing = 1 →
        ∃ ep sz buf, e = UsbEvent.dataOut ep sz buf ∧
          cfg.total / 2 ≤ (stepEvent cfg s e).1.wr_ptr ∧
          (stepEvent cfg s e).2 =
            [Action.audioCmd 0 (cfg.total / 2) AudioCmd.START,
              Action.prepareReceive cfg.outEp]) := by
  refine ⟨?_, ?_, ?_⟩
  · rcases (runEvents_start_invariant cfg events s0).1 h0 with ⟨_, hc⟩ | ⟨_, hc⟩ <;> omega
  · intro hplay
    rcases (runEvents_start_invariant cfg events s0).1 h0 with ⟨hp, _⟩ | ⟨_, hc⟩
    · exact absurd hplay (by simp [hp.1])
    · exact hc
  · intro s e hpre hplay
    cases e <;>
      simp only [stepEvent, USBD_AUDIO_DataOut, USBD_AUDIO_DataIn, USBD_AUDIO_SOF,
        USBD_AUDIO_IsoINIncomplete, USBD_AUDIO_IsoOutIncomplete] at hplay ⊢ <;>
      (try split_ifs at hplay ⊢) <;>
      simp_all [PreStart]

/-- The post-alt-1-reset state with ingestion enabled, used to exercise the
start-once property on a concrete trace. -/
def readyState : AudioState := { baseState with all_ready := 1 }

theorem is_playing_starts_once_witness :
    PreStart readyState ∧
      (countStart (runEvents cfgSmall readyState
            [UsbEvent.dataOut 1 4 (List.replicate 4 9)]).2 ≤ 1 ∧
        ((runEvents cfgSmall readyState
            [UsbEvent.dataOut 1 4 (List.replicate 4 9)]).1.is_playing = 1 →
          countStart (runEvents cfgSmall readyState
            [UsbEvent.dataOut 1 4 (List.replicate 4 9)]).2 = 1) ∧
        (∀ (s : AudioState) (e : UsbEvent), PreStart s →
          (stepEvent cfgSmall s e).1.is_playing = 1 →
          ∃ ep sz buf, e = UsbEvent.dataOut ep sz buf ∧
            cfgSmall.total / 2 ≤ (stepEvent cfgSmall s e).1.wr_ptr ∧
            (stepEvent cfgSmall s e).2 =
              [Action.audioCmd 0 (cfgSmall.total / 2) AudioCmd.START,
                Action.prepareReceive cfgSmall.outEp])) :=
  ⟨by decide,
    is_playing_starts_once cfgSmall readyState
      [UsbEvent.dataOut 1 4 (List.replicate 4 9)] (by decide)⟩

end UsbdAudio
